import Mathlib

/-!
Shallow embedding of the order/payment core of the ecommerce backend
(controllers/payments.js, controllers/orders.js, controllers/admin.js,
routes/orders.js, routes/payments.js, routes/admin.js).

Monetary values are embedded as `Nat` (the JS code only adds and
multiplies them on the paths modelled here), Mongo object ids and user
ids as `String` (the code compares them with `toString()` equality),
and timestamps (`Date.now()`) as an explicit `now : Nat` parameter.
The Mongo collection of orders is a `List Order`; `save()` replaces the
document with the same `_id`, and `findOneAndUpdate` updates the first
matching document.  Stripe is modelled by passing the result of
`stripe.paymentIntents.retrieve` as a lookup function, and
`stripe.webhooks.constructEvent` as an `Option StripeEvent` (`none`
when signature verification throws).
-/

namespace Ecom

/-- Entry of `order.items` as built by `createOrder` in controllers/orders.js:
`{product, quantity, price}` where `price` is the catalog price frozen at
order creation. -/
structure OrderItem where
  product : String
  quantity : Nat
  price : Nat
deriving Repr, DecidableEq

/-- Subdocument `order.paymentResult` as written by `confirmPayment`
(controllers/payments.js) and `updateOrderToPaid` (controllers/orders.js):
`{id, status, update_time, email_address}`. -/
structure PaymentResult where
  id : String
  status : String
  update_time : Nat
  email_address : String
deriving Repr, DecidableEq

/-- Order document, with the fields the modelled controllers read or write.
The Order schema file itself is not part of the sources; the fields and
their use are taken from the controllers (user, items, taxPrice,
shippingPrice, totalPrice from `createOrder`; isPaid, paidAt,
paymentResult from the payment paths; status, isDelivered, deliveredAt
from the admin/delivery paths). -/
structure Order where
  id : String
  user : String
  items : List OrderItem
  taxPrice : Nat
  shippingPrice : Nat
  totalPrice : Nat
  status : String
  isPaid : Bool
  paidAt : Option Nat
  paymentResult : Option PaymentResult
  isDelivered : Bool
  deliveredAt : Option Nat
deriving Repr, DecidableEq

/-- Product document: only the fields the modelled controllers read. -/
structure Product where
  id : String
  price : Nat
deriving Repr, DecidableEq

/-- Authenticated request user as supplied by the `protect` middleware:
`req.user.id`, `req.user.role`, `req.user.email`. -/
structure ReqUser where
  id : String
  role : String
  email : String
deriving Repr, DecidableEq

/-- Result of `stripe.paymentIntents.retrieve(paymentId)`: the fields the
code reads (`id`, `status`, `created`). -/
structure StripeIntent where
  id : String
  status : String
  created : Nat
deriving Repr, DecidableEq

/-- Stripe webhook event after `constructEvent`: its `type` and the fields
of `event.data.object` that matter (`id`, `status`, `amount`).  The
`amount` field is present on every payment-intent event; the handler in
controllers/payments.js never reads it. -/
structure StripeEvent where
  type : String
  intentId : String
  intentStatus : String
  amount : Nat
deriving Repr, DecidableEq

/-- Error response `new ErrorResponse(message, statusCode)`. -/
structure ErrResp where
  message : String
  statusCode : Nat
deriving Repr, DecidableEq

/-- Response of the webhook route: `res.json({received: true})` or
`res.status(400).send(text)`. -/
inductive WebhookOutcome where
  | received
  | badRequest (msg : String)
deriving Repr, DecidableEq

/-- Item of the `items` array in the body of `POST /api/v1/orders`. -/
structure NewItem where
  product : String
  quantity : Nat
deriving Repr, DecidableEq

/-- Mongo `Order.findById`. -/
def findById (db : List Order) (oid : String) : Option Order :=
  db.find? (fun o => o.id == oid)

/-- Mongo `Product.findById`. -/
def findProductById (catalog : List Product) (pid : String) : Option Product :=
  catalog.find? (fun p => p.id == pid)

/-- Mongoose `order.save()`: replaces the stored document with the same
`_id` by the in-memory one. -/
def saveOrder (db : List Order) (o : Order) : List Order :=
  db.map (fun x => if x.id == o.id then o else x)

/-- Match used by the webhook query `{ 'paymentResult.id': intentId }`. -/
def matchesIntent (o : Order) (intentId : String) : Bool :=
  match o.paymentResult with
  | some pr => pr.id == intentId
  | none => false

/-- The webhook's `Order.findOneAndUpdate({'paymentResult.id': iid},
{isPaid: true, paidAt: Date.now(), 'paymentResult.status': st})`:
updates the first matching document only. -/
def updateFirstPaid (db : List Order) (intentId newStatus : String)
    (now : Nat) : List Order :=
  match db with
  | [] => []
  | o :: rest =>
    if matchesIntent o intentId then
      { o with
        isPaid := true, paidAt := some now,
        paymentResult :=
          o.paymentResult.map (fun pr => { pr with status := newStatus }) }
        :: rest
    else
      o :: updateFirstPaid rest intentId newStatus now

/-- Loop body of `createOrder`: resolves each item against the live
catalog, accumulating `itemsPrice` and the frozen `orderItems`;
a missing product aborts with 404. -/
def resolveItems (catalog : List Product) :
    List NewItem → Except ErrResp (List OrderItem × Nat)
  | [] => .ok ([], 0)
  | it :: rest =>
    match findProductById catalog it.product with
    | none => .error ⟨"Product not found", 404⟩
    | some p =>
      match resolveItems catalog rest with
      | .error e => .error e
      | .ok (items, acc) =>
        .ok (⟨it.product, it.quantity, p.price⟩ :: items,
             p.price * it.quantity + acc)

/-- The function `createOrder` of controllers/orders.js (route
`POST /api/v1/orders`): freezes each item's current catalog price into
the order and stores `totalPrice = itemsPrice + taxPrice + shippingPrice`.
`oid` stands for the `_id` Mongo generates; the initial flags follow the
schema defaults visible in the controllers (`isPaid`, `isDelivered`
false, no `paymentResult`, status counted as pending by the admin
dashboard). -/
def createOrder (catalog : List Product) (userId oid : String)
    (items : List NewItem) (taxPrice shippingPrice : Nat) :
    Except ErrResp Order :=
  if items.length == 0 then
    .error ⟨"No order items", 400⟩
  else
    match resolveItems catalog items with
    | .error e => .error e
    | .ok (orderItems, itemsPrice) =>
      .ok { id := oid, user := userId, items := orderItems,
            taxPrice := taxPrice, shippingPrice := shippingPrice,
            totalPrice := itemsPrice + taxPrice + shippingPrice,
            status := "pending", isPaid := false, paidAt := none,
            paymentResult := none, isDelivered := false,
            deliveredAt := none }

/-- The `order.items.reduce((total, item) => total + item.product.price *
item.quantity, 0)` of `createPaymentIntent`, where `item.product` is the
live populated product: the sum of current catalog prices times
quantities.  `none` models the TypeError thrown when a populated product
no longer exists. -/
def liveAmount (catalog : List Product) : List OrderItem → Option Nat
  | [] => some 0
  | it :: rest =>
    match findProductById catalog it.product with
    | none => none
    | some p =>
      match liveAmount catalog rest with
      | none => none
      | some acc => some (p.price * it.quantity + acc)

/-- The function `createPaymentIntent` of controllers/payments.js (route
`POST /api/v1/payments/create-payment-intent`): 404 when the order is
missing, 401 when the requester is not the owner, 400 when already paid;
otherwise the amount handed to `stripe.paymentIntents.create` is
`totalAmount * 100` cents where `totalAmount` is recomputed from the
live populated catalog prices.  Returns that amount. -/
def createPaymentIntent (catalog : List Product) (db : List Order)
    (reqUserId orderId : String) : Except ErrResp Nat :=
  match findById db orderId with
  | none => .error ⟨"Order not found", 404⟩
  | some order =>
    if order.user != reqUserId then
      .error ⟨"Not authorized to pay for this order", 401⟩
    else if order.isPaid then
      .error ⟨"Order already paid", 400⟩
    else
      match liveAmount catalog order.items with
      | none => .error ⟨"TypeError", 500⟩
      | some totalAmount => .ok (totalAmount * 100)

/-- The function `confirmPayment` of controllers/payments.js (route
`PUT /api/v1/payments/confirm-payment`): 404 when the order is missing,
401 when the requester is not the owner, 400 when the retrieved intent's
status is not succeeded; otherwise unconditionally sets `isPaid`,
`paidAt := Date.now()` and rewrites `paymentResult`, then saves.
`retrieveIntent` models `stripe.paymentIntents.retrieve` (`none` for a
gateway error, surfaced as a 500 by `asyncHandler`).  Returns the order
sent in the response together with the saved collection. -/
def confirmPayment (db : List Order) (user : ReqUser)
    (orderId paymentId : String)
    (retrieveIntent : String → Option StripeIntent) (now : Nat) :
    Except ErrResp (Order × List Order) :=
  match findById db orderId with
  | none => .error ⟨"Order not found", 404⟩
  | some order =>
    if order.user != user.id then
      .error ⟨"Not authorized to update this order", 401⟩
    else
      match retrieveIntent paymentId with
      | none => .error ⟨"Stripe error", 500⟩
      | some intent =>
        if intent.status != "succeeded" then
          .error ⟨"Payment not successful", 400⟩
        else
          let updated : Order :=
            { order with
              isPaid := true, paidAt := some now,
              paymentResult := some ⟨intent.id, intent.status,
                intent.created, user.email⟩ }
          .ok (updated, saveOrder db updated)

/-- The function `webhook` of controllers/payments.js (route
`POST /api/v1/payments/webhook`): `event` is the result of
`stripe.webhooks.constructEvent` — `none` when the signature does not
verify, in which case the handler answers 400 with a plain-text error
and touches nothing.  A `payment_intent.succeeded` event runs the
`findOneAndUpdate` keyed on the stored `paymentResult.id`; failed and
unknown events are logged only. -/
def webhook (db : List Order) (event : Option StripeEvent) (now : Nat) :
    WebhookOutcome × List Order :=
  match event with
  | none => (.badRequest "Webhook Error", db)
  | some ev =>
    if ev.type == "payment_intent.succeeded" then
      (.received, updateFirstPaid db ev.intentId ev.intentStatus now)
    else
      (.received, db)

/-- The function `updateOrderToDelivered` of controllers/orders.js (route
`PUT /api/v1/orders/:id/deliver`, admin-only): 404 when missing, then
unconditionally sets `isDelivered`, `deliveredAt` and status
`delivered`. -/
def updateOrderToDelivered (db : List Order) (orderId : String)
    (now : Nat) : Except ErrResp (Order × List Order) :=
  match findById db orderId with
  | none => .error ⟨"Order not found", 404⟩
  | some order =>
    let updated : Order :=
      { order with
        isDelivered := true, deliveredAt := some now,
        status := "delivered" }
    .ok (updated, saveOrder db updated)

/-- The function `updateOrderStatus` of controllers/admin.js (route
`PUT /api/v1/admin/orders/:id/status`, admin-only): 404 when missing,
then stores the requested status string unconditionally, additionally
setting `isDelivered` and `deliveredAt` when it is `delivered`. -/
def updateOrderStatus (db : List Order) (orderId status : String)
    (now : Nat) : Except ErrResp (Order × List Order) :=
  match findById db orderId with
  | none => .error ⟨"Order not found", 404⟩
  | some order =>
    let updated : Order :=
      if status == "delivered" then
        { order with
          status := status, isDelivered := true,
          deliveredAt := some now }
      else
        { order with status := status }
    .ok (updated, saveOrder db updated)

/-- Body of `PUT /api/v1/orders/:id` (`updateOrder` passes `req.body`
to `findByIdAndUpdate` unfiltered); the fields modelled are the ones the
order schema carries and the claims mention.  `none` means the field is
absent from the body. -/
structure UpdateBody where
  user : Option String := none
  totalPrice : Option Nat := none
  status : Option String := none
  isPaid : Option Bool := none
  paymentResult : Option PaymentResult := none
  isDelivered : Option Bool := none
deriving Repr, DecidableEq

/-- Effect of `findByIdAndUpdate(id, req.body)`: each field present in
the body replaces the stored one. -/
def applyBody (o : Order) (b : UpdateBody) : Order :=
  { o with
    user := b.user.getD o.user,
    totalPrice := b.totalPrice.getD o.totalPrice,
    status := b.status.getD o.status,
    isPaid := b.isPaid.getD o.isPaid,
    paymentResult :=
      match b.paymentResult with
      | some pr => some pr
      | none => o.paymentResult,
    isDelivered := b.isDelivered.getD o.isDelivered }

/-- The function `updateOrder` of controllers/orders.js (route
`PUT /api/v1/orders/:id`, owner or admin per the in-controller check):
404 when missing, 401 when the requester is neither the owner nor an
admin, otherwise writes the body's fields directly onto the order via
`findByIdAndUpdate` and returns the updated document. -/
def updateOrder (db : List Order) (user : ReqUser) (orderId : String)
    (body : UpdateBody) : Except ErrResp (Order × List Order) :=
  match findById db orderId with
  | none => .error ⟨"Order not found", 404⟩
  | some order =>
    if order.user != user.id && user.role != "admin" then
      .error ⟨"Not authorized to update this order", 401⟩
    else
      let updated : Order := applyBody order body
      .ok (updated, saveOrder db updated)

/-- Concrete owner used by the concrete scenarios below. -/
def uOwner : ReqUser := ⟨"u1", "user", "owner@example.com"⟩

/-- Concrete unpaid order: two units of product `p1` frozen at price 10,
tax 1, shipping 2, hence `totalPrice = 23` as `createOrder` computes. -/
def baseOrder : Order :=
  { id := "o1", user := "u1",
    items := [⟨"p1", 2, 10⟩],
    taxPrice := 1, shippingPrice := 2, totalPrice := 23,
    status := "pending", isPaid := false, paidAt := none,
    paymentResult := none, isDelivered := false, deliveredAt := none }

/-- The same order after a successful confirmation with intent `pi_1`
at time 1. -/
def confirmedAt1 : Order :=
  { baseOrder with
    isPaid := true, paidAt := some 1,
    paymentResult := some ⟨"pi_1", "succeeded", 5, "owner@example.com"⟩ }

/-- The confirmed order after a second write stamps `paidAt := 2`. -/
def confirmedAt2 : Order :=
  { confirmedAt1 with paidAt := some 2 }

/-- Concrete already-paid order (paid with intent `pi_1`). -/
def paidOrder : Order := confirmedAt1

/-- Stripe stub: intents `pi_1` and `pi_2` both exist and succeeded. -/
def retrieveOk : String → Option StripeIntent :=
  fun pid =>
    if pid == "pi_1" then some ⟨"pi_1", "succeeded", 5⟩
    else if pid == "pi_2" then some ⟨"pi_2", "succeeded", 6⟩
    else none

/-- Catalog at order-creation time: `p1` costs 10. -/
def catalogBefore : List Product := [⟨"p1", 10⟩]

/-- Catalog after the seller raises the price of `p1` to 20. -/
def catalogAfter : List Product := [⟨"p1", 20⟩]

/-- Catalog in which `p1` currently costs 50. -/
def catalogLive : List Product := [⟨"p1", 50⟩]

/-- Order frozen from `catalogBefore`: one unit of `p1` at 10, no tax or
shipping, `totalPrice = 10`. -/
def frozenOrder : Order :=
  { id := "o1", user := "u1",
    items := [⟨"p1", 1, 10⟩],
    taxPrice := 0, shippingPrice := 0, totalPrice := 10,
    status := "pending", isPaid := false, paidAt := none,
    paymentResult := none, isDelivered := false, deliveredAt := none }

/-- An order like `baseOrder` but with garbage frozen prices and total:
same products and quantities, snapshot price 999, `totalPrice` 99999. -/
def garbledSnapshotOrder : Order :=
  { baseOrder with items := [⟨"p1", 2, 999⟩], totalPrice := 99999 }

/-- The paid order after the mismatched-amount webhook write at time 7. -/
def paidOrderAt7 : Order := { paidOrder with paidAt := some 7 }

/-- The paid order after a second confirmation with the distinct intent
`pi_2` at time 4: the original `pi_1` reference is gone. -/
def paidWithPi2 : Order :=
  { paidOrder with
    paidAt := some 4,
    paymentResult := some ⟨"pi_2", "succeeded", 6, "owner@example.com"⟩ }

/-- Concrete delivered order. -/
def deliveredOrder : Order :=
  { paidOrder with
    status := "delivered", isDelivered := true, deliveredAt := some 6 }

/-- The delivered order after the admin status route moves it back to
`pending`. -/
def regressedOrder : Order := { deliveredOrder with status := "pending" }

/-- The unpaid `baseOrder` after the mark-delivered route runs on it. -/
def unpaidDelivered : Order :=
  { baseOrder with
    isDelivered := true, deliveredAt := some 3, status := "delivered" }

/-- Concrete generic-update body rewriting the sensitive fields. -/
def bodyRewrite : UpdateBody :=
  { user := some "u2", totalPrice := some 1, status := some "pending",
    isPaid := some true,
    paymentResult := some ⟨"pi_9", "succeeded", 8, "other@example.com"⟩,
    isDelivered := some true }

/-- Projection of an items list to what the populated reduce of
`createPaymentIntent` actually reads: the product reference and the
quantity (never the frozen `price`). -/
def itemsKey (items : List OrderItem) : List (String × Nat) :=
  items.map (fun it => (it.product, it.quantity))

lemma liveAmount_eq_of_itemsKey_eq (catalog : List Product) :
    ∀ xs ys : List OrderItem, itemsKey xs = itemsKey ys →
      liveAmount catalog xs = liveAmount catalog ys := by
  intro xs
  induction xs with
  | nil =>
    intro ys h
    cases ys with
    | nil => rfl
    | cons y yt => simp [itemsKey] at h
  | cons x xt ih =>
    intro ys h
    cases ys with
    | nil => simp [itemsKey] at h
    | cons y yt =>
      simp only [itemsKey, List.map_cons, List.cons.injEq, Prod.mk.injEq] at h
      obtain ⟨⟨hp, hq⟩, ht⟩ := h
      simp only [liveAmount, hp, hq, ih yt ht]

lemma updateFirstPaid_no_match (db : List Order) (iid st : String)
    (now : Nat) (h : ∀ o ∈ db, matchesIntent o iid = false) :
    updateFirstPaid db iid st now = db := by
  induction db with
  | nil => rfl
  | cons o rest ih =>
    have ho : matchesIntent o iid = false := h o (List.mem_cons_self o rest)
    simp only [updateFirstPaid, ho, if_false, Bool.false_eq_true]
    rw [ih (fun o' ho' => h o' (List.mem_cons_of_mem o ho'))]

lemma findById_cons (x : Order) (rest : List Order) (oid : String) :
    findById (x :: rest) oid =
      if x.id == oid then some x else findById rest oid := by
  by_cases hx : (x.id == oid) = true
  · rw [findById,
      @List.find?_cons_of_pos _ (fun a : Order => a.id == oid) x rest hx,
      if_pos hx]
  · rw [findById,
      @List.find?_cons_of_neg _ (fun a : Order => a.id == oid) x rest hx,
      if_neg hx]
    rfl

lemma saveOrder_cons (x : Order) (rest : List Order) (o' : Order) :
    saveOrder (x :: rest) o' =
      (if x.id == o'.id then o' else x) :: saveOrder rest o' := rfl

lemma findById_saveOrder_self (db : List Order) (oid : String)
    (o o' : Order) (hfind : findById db oid = some o)
    (hid : o'.id = o.id) :
    findById (saveOrder db o') oid = some o' := by
  have hoid : o.id = oid := by
    have := List.find?_some hfind
    simpa using this
  induction db with
  | nil => simp [findById] at hfind
  | cons x rest ih =>
    rw [findById_cons] at hfind
    by_cases hx : (x.id == oid) = true
    · have hxo : (x.id == o'.id) = true := by
        rw [hid, hoid]; exact hx
      have h2 : (o'.id == oid) = true := by
        rw [hid, hoid]; exact beq_self_eq_true oid
      rw [saveOrder_cons, if_pos hxo, findById_cons, if_pos h2]
    · have hxo : ¬ (x.id == o'.id) = true := by
        rw [hid, hoid]; exact hx
      have hrest : findById rest oid = some o := by
        rwa [if_neg hx] at hfind
      rw [saveOrder_cons, if_neg hxo, findById_cons, if_neg hx]
      exact ih hrest

/-- C8: a webhook delivery whose signature does not verify (modelled by
`constructEvent` returning no event) is answered 400 with a plain-text
error and no order in the store is mutated; the signature check runs
before any persistence access. -/
theorem webhook_bad_signature_rejected_without_mutation
    (db : List Order) (now : Nat) :
    webhook db none now = (.badRequest "Webhook Error", db) := rfl

/-- C10: a `payment_intent.succeeded` webhook event whose intent id
matches no stored `paymentResult.id` modifies no order: the handler
selects the order solely by that already-stored id, so the webhook alone
never marks paid an order that was not first confirmed. -/
theorem webhook_unmatched_intent_no_mutation
    (db : List Order) (iid st : String) (a now : Nat)
    (h : ∀ o ∈ db, matchesIntent o iid = false) :
    webhook db (some ⟨"payment_intent.succeeded", iid, st, a⟩) now =
      (.received, db) := by
  simp [webhook, updateFirstPaid_no_match db iid st now h]

/-- Witness for C10: the store holds only an order paid with `pi_1`; a
success event for `pi_9` touches nothing. -/
theorem webhook_unmatched_intent_no_mutation_witness :
    webhook [paidOrder]
      (some ⟨"payment_intent.succeeded", "pi_9", "succeeded", 2300⟩) 7 =
      (.received, [paidOrder]) :=
  webhook_unmatched_intent_no_mutation [paidOrder] "pi_9" "succeeded"
    2300 7 (by decide)

/-- C9: for the order's owner (or an admin), `PUT /orders/:id` writes
the request body's fields — `totalPrice`, `isPaid`, `status`, `user`,
`paymentResult` included — directly onto the stored order, with no
state-machine, ownership or price-snapshot check. -/
theorem updateOrder_writes_body_fields
    (db : List Order) (user : ReqUser) (oid : String) (body : UpdateBody)
    (o : Order) (hfind : findById db oid = some o)
    (hauth : o.user = user.id ∨ user.role = "admin") :
    updateOrder db user oid body =
      .ok (applyBody o body, saveOrder db (applyBody o body)) ∧
    (applyBody o body).totalPrice = body.totalPrice.getD o.totalPrice ∧
    (applyBody o body).isPaid = body.isPaid.getD o.isPaid ∧
    (applyBody o body).status = body.status.getD o.status ∧
    (applyBody o body).user = body.user.getD o.user ∧
    (applyBody o body).paymentResult =
      (match body.paymentResult with
       | some pr => some pr
       | none => o.paymentResult) := by
  have hguard : (o.user != user.id && user.role != "admin") = false := by
    rcases hauth with h | h
    · simp [h]
    · simp [h]
  refine ⟨?_, rfl, rfl, rfl, rfl, rfl⟩
  simp [updateOrder, hfind, hguard]

/-- Witness for C9: the owner rewrites `user`, `totalPrice`, `status`,
`isPaid` and `paymentResult` of an already-paid order in one call. -/
theorem updateOrder_writes_body_fields_witness :
    updateOrder [paidOrder] uOwner "o1" bodyRewrite =
      .ok (applyBody paidOrder bodyRewrite,
           saveOrder [paidOrder] (applyBody paidOrder bodyRewrite)) :=
  (updateOrder_writes_body_fields [paidOrder] uOwner "o1" bodyRewrite
    paidOrder rfl (Or.inl rfl)).1

/-- C1 (amended): the amount handed to the gateway is recomputed at
intent-creation time from the live catalog prices and quantities (times
100 cents) and never reads the order's frozen item prices or stored
`totalPrice`: two orders with the same products and quantities but
arbitrary frozen snapshots are charged the same live-derived amount. -/
theorem createPaymentIntent_recomputes_from_live_catalog
    (catalog : List Product) (uid : String) (o1 o2 : Order) (s : Nat)
    (hown1 : o1.user = uid) (hown2 : o2.user = uid)
    (hpaid1 : o1.isPaid = false) (hpaid2 : o2.isPaid = false)
    (hkeys : itemsKey o1.items = itemsKey o2.items)
    (hlive : liveAmount catalog o1.items = some s) :
    createPaymentIntent catalog [o1] uid o1.id = .ok (s * 100) ∧
    createPaymentIntent catalog [o2] uid o2.id = .ok (s * 100) := by
  have hlive2 : liveAmount catalog o2.items = some s := by
    rw [← liveAmount_eq_of_itemsKey_eq catalog o1.items o2.items hkeys]
    exact hlive
  constructor
  · have hfind : findById [o1] o1.id = some o1 := by
      simp [findById]
    simp [createPaymentIntent, hfind, hown1, hpaid1, hlive]
  · have hfind : findById [o2] o2.id = some o2 := by
      simp [findById]
    simp [createPaymentIntent, hfind, hown2, hpaid2, hlive2]

/-- Witness for C1 (amended): with `p1` live at 50, `baseOrder` (frozen
price 10, total 23) and a garbled copy (frozen price 999, total 99999)
are both charged 100·100 cents. -/
theorem createPaymentIntent_recomputes_from_live_catalog_witness :
    createPaymentIntent catalogLive [baseOrder] "u1" baseOrder.id =
      .ok (100 * 100) ∧
    createPaymentIntent catalogLive [garbledSnapshotOrder] "u1"
      garbledSnapshotOrder.id = .ok (100 * 100) :=
  createPaymentIntent_recomputes_from_live_catalog catalogLive "u1"
    baseOrder garbledSnapshotOrder 100 rfl rfl rfl rfl rfl rfl

/-- Counterexample to C1 as stated: an order is created while `p1`
costs 10 (frozen `totalPrice` 10), the price is then raised to 20, and
the payment intent charges 2000 cents instead of the frozen
10·100 = 1000. -/
theorem createPaymentIntent_price_drift_cex :
    createOrder catalogBefore "u1" "o1" [⟨"p1", 1⟩] 0 0 =
      .ok frozenOrder ∧
    createPaymentIntent catalogAfter [frozenOrder] "u1" "o1" =
      .ok 2000 ∧
    100 * frozenOrder.totalPrice = 1000 ∧ (2000 : Nat) ≠ 1000 :=
  ⟨rfl, rfl, rfl, by decide⟩

/-- C2 (amended): `confirmPayment` has no already-paid branch; a second
call with the same `(orderId, intentId)` succeeds again and re-applies
the whole update, so the only change it makes is overwriting `paidAt`
with the second call's clock reading — the states after the two calls
coincide only when the two clock readings do. -/
theorem confirmPayment_second_call_rewrites_paidAt
    (db : List Order) (user : ReqUser) (oid pid : String)
    (retrieve : String → Option StripeIntent) (intent : StripeIntent)
    (o : Order) (t1 t2 : Nat)
    (hfind : findById db oid = some o)
    (hown : o.user = user.id)
    (hret : retrieve pid = some intent)
    (hst : intent.status = "succeeded") :
    ∃ o1 db1,
      confirmPayment db user oid pid retrieve t1 = .ok (o1, db1) ∧
      o1.paidAt = some t1 ∧
      confirmPayment db1 user oid pid retrieve t2 =
        .ok ({ o1 with paidAt := some t2 },
             saveOrder db1 { o1 with paidAt := some t2 }) := by
  refine ⟨{ o with
            isPaid := true, paidAt := some t1,
            paymentResult := some ⟨intent.id, intent.status,
              intent.created, user.email⟩ },
          saveOrder db { o with
            isPaid := true, paidAt := some t1,
            paymentResult := some ⟨intent.id, intent.status,
              intent.created, user.email⟩ }, ?_, rfl, ?_⟩
  · simp [confirmPayment, hfind, hown, hret, hst]
  · have hfind2 : findById (saveOrder db { o with
        isPaid := true, paidAt := some t1,
        paymentResult := some ⟨intent.id, intent.status,
          intent.created, user.email⟩ }) oid = some { o with
        isPaid := true, paidAt := some t1,
        paymentResult := some ⟨intent.id, intent.status,
          intent.created, user.email⟩ } :=
      findById_saveOrder_self db oid o _ hfind rfl
    simp only [confirmPayment]
    rw [hfind2]
    simp [hown, hret, hst]

/-- Witness for C2 (amended): confirming `baseOrder` twice with `pi_1`
at times 1 and 2. -/
theorem confirmPayment_second_call_rewrites_paidAt_witness :
    ∃ o1 db1,
      confirmPayment [baseOrder] uOwner "o1" "pi_1" retrieveOk 1 =
        .ok (o1, db1) ∧
      o1.paidAt = some 1 ∧
      confirmPayment db1 uOwner "o1" "pi_1" retrieveOk 2 =
        .ok ({ o1 with paidAt := some 2 },
             saveOrder db1 { o1 with paidAt := some 2 }) :=
  confirmPayment_second_call_rewrites_paidAt [baseOrder] uOwner "o1"
    "pi_1" retrieveOk ⟨"pi_1", "succeeded", 5⟩ baseOrder 1 2
    rfl rfl rfl rfl

/-- Counterexample to C2 as stated: the second identical
`(orderId, intentId)` call produces a new `paidAt` (2 instead of 1), so
the order states after the two calls differ. -/
theorem confirmPayment_not_idempotent_cex :
    confirmPayment [baseOrder] uOwner "o1" "pi_1" retrieveOk 1 =
      .ok (confirmedAt1, [confirmedAt1]) ∧
    confirmPayment [confirmedAt1] uOwner "o1" "pi_1" retrieveOk 2 =
      .ok (confirmedAt2, [confirmedAt2]) ∧
    confirmedAt1.paidAt ≠ confirmedAt2.paidAt ∧
    confirmedAt1 ≠ confirmedAt2 :=
  ⟨rfl, rfl, by decide, by decide⟩

/-- C3 (amended): `confirmPayment` never inspects an existing
`paymentResult`; confirming an already-paid order with a second,
distinct intent id succeeds (no DoublePaymentDetected failure exists)
and silently replaces the originally recorded reference with the new
intent's data. -/
theorem confirmPayment_overwrites_distinct_intent
    (db : List Order) (user : ReqUser) (oid pid : String)
    (retrieve : String → Option StripeIntent) (intent : StripeIntent)
    (o : Order) (pr : PaymentResult) (t : Nat)
    (hfind : findById db oid = some o)
    (hown : o.user = user.id)
    (hret : retrieve pid = some intent)
    (hst : intent.status = "succeeded")
    (_hpaid : o.isPaid = true)
    (hpr : o.paymentResult = some pr)
    (hdiff : pr.id ≠ intent.id) :
    ∃ o', confirmPayment db user oid pid retrieve t =
        .ok (o', saveOrder db o') ∧
      o'.paymentResult = some ⟨intent.id, intent.status,
        intent.created, user.email⟩ ∧
      o'.paymentResult ≠ o.paymentResult := by
  refine ⟨{ o with
            isPaid := true, paidAt := some t,
            paymentResult := some ⟨intent.id, intent.status,
              intent.created, user.email⟩ }, ?_, rfl, ?_⟩
  · simp [confirmPayment, hfind, hown, hret, hst]
  · rw [hpr]
    intro h
    have h2 := Option.some.inj h
    exact hdiff (by rw [← h2])

/-- Witness for C3 (amended): `paidOrder` is paid with `pi_1`; a
confirmation with `pi_2` succeeds and replaces the reference. -/
theorem confirmPayment_overwrites_distinct_intent_witness :
    ∃ o', confirmPayment [paidOrder] uOwner "o1" "pi_2" retrieveOk 4 =
        .ok (o', saveOrder [paidOrder] o') ∧
      o'.paymentResult = some ⟨"pi_2", "succeeded", 6,
        "owner@example.com"⟩ ∧
      o'.paymentResult ≠ paidOrder.paymentResult :=
  confirmPayment_overwrites_distinct_intent [paidOrder] uOwner "o1"
    "pi_2" retrieveOk ⟨"pi_2", "succeeded", 6⟩ paidOrder
    ⟨"pi_1", "succeeded", 5, "owner@example.com"⟩ 4
    rfl rfl rfl rfl rfl rfl (by decide)

/-- Counterexample to C3 as stated: the order paid with `pi_1` accepts
a confirmation with the distinct `pi_2` — the call returns success, not
DoublePaymentDetected, and the stored reference changes. -/
theorem confirmPayment_double_payment_cex :
    paidOrder.paymentResult =
      some ⟨"pi_1", "succeeded", 5, "owner@example.com"⟩ ∧
    confirmPayment [paidOrder] uOwner "o1" "pi_2" retrieveOk 4 =
      .ok (paidWithPi2, [paidWithPi2]) ∧
    paidWithPi2.paymentResult =
      some ⟨"pi_2", "succeeded", 6, "owner@example.com"⟩ ∧
    paidWithPi2.paymentResult ≠ paidOrder.paymentResult :=
  ⟨rfl, rfl, rfl, by decide⟩

/-- C4 (amended): the webhook success branch performs no amount check —
it never reads the event's amount nor the order's `totalPrice` — so an
event whose amount differs from the frozen total still updates the
matched order (`isPaid`, `paidAt`, `paymentResult.status`) and is
acknowledged. -/
theorem webhook_applies_mismatched_amount
    (o : Order) (pr : PaymentResult) (st : String) (a t : Nat)
    (hpr : o.paymentResult = some pr)
    (_hneq : a ≠ 100 * o.totalPrice) :
    webhook [o] (some ⟨"payment_intent.succeeded", pr.id, st, a⟩) t =
      (.received,
       [{ o with
          isPaid := true, paidAt := some t,
          paymentResult := some { pr with status := st } }]) := by
  simp [webhook, updateFirstPaid, matchesIntent, hpr]

/-- Witness for C4 (amended): a success event for `pi_1` carrying
amount 1 (the frozen total is 23, i.e. 2300 cents) still rewrites
`paidOrder`. -/
theorem webhook_applies_mismatched_amount_witness :
    webhook [paidOrder]
      (some ⟨"payment_intent.succeeded", "pi_1", "succeeded", 1⟩) 7 =
      (.received,
       [{ paidOrder with
          isPaid := true, paidAt := some 7,
          paymentResult := some ⟨"pi_1", "succeeded", 5,
            "owner@example.com"⟩ }]) :=
  webhook_applies_mismatched_amount paidOrder
    ⟨"pi_1", "succeeded", 5, "owner@example.com"⟩ "succeeded" 1 7
    rfl (by decide)

/-- Counterexample to C4 as stated: the event amount 999 differs from
the order's frozen total in cents (2300), yet the handler answers
received and mutates the order (`paidAt` moves to 7). -/
theorem webhook_amount_mismatch_cex :
    (999 : Nat) ≠ 100 * paidOrder.totalPrice ∧
    webhook [paidOrder]
      (some ⟨"payment_intent.succeeded", "pi_1", "succeeded", 999⟩) 7 =
      (.received, [paidOrderAt7]) ∧
    paidOrderAt7 ≠ paidOrder :=
  ⟨by decide, rfl, by decide⟩

/-- C5 (amended): with no versioned save or retry anywhere, a confirm
call and a success webhook for the same intent, run one after the
other, both resolve without error and both write: the confirm commits
the paid state at its clock reading, then the webhook matches the
freshly stored intent id and overwrites `paidAt` with its own reading,
so the committed states differ whenever the readings do. -/
theorem confirm_then_webhook_both_write
    (user : ReqUser) (o : Order) (pid : String)
    (retrieve : String → Option StripeIntent) (intent : StripeIntent)
    (a t1 t2 : Nat)
    (hown : o.user = user.id)
    (hret : retrieve pid = some intent)
    (hst : intent.status = "succeeded") :
    ∃ o1,
      confirmPayment [o] user o.id pid retrieve t1 = .ok (o1, [o1]) ∧
      o1.isPaid = true ∧ o1.paidAt = some t1 ∧
      o1.paymentResult = some ⟨intent.id, intent.status,
        intent.created, user.email⟩ ∧
      webhook [o1] (some ⟨"payment_intent.succeeded", intent.id,
        intent.status, a⟩) t2 =
        (.received, [{ o1 with paidAt := some t2 }]) ∧
      (t1 ≠ t2 → { o1 with paidAt := some t2 } ≠ o1) := by
  refine ⟨{ o with
            isPaid := true, paidAt := some t1,
            paymentResult := some ⟨intent.id, intent.status,
              intent.created, user.email⟩ },
          ?_, rfl, rfl, rfl, ?_, ?_⟩
  · have hfind : findById [o] o.id = some o := by
      simp [findById]
    simp [confirmPayment, hfind, hown, hret, hst, saveOrder]
  · simp [webhook, updateFirstPaid, matchesIntent]
  · intro hne heq
    have := congrArg Order.paidAt heq
    simp only [Option.some.injEq] at this
    exact hne this.symm

/-- Witness for C5 (amended): confirm at time 1, webhook at time 2. -/
theorem confirm_then_webhook_both_write_witness :
    ∃ o1,
      confirmPayment [baseOrder] uOwner baseOrder.id "pi_1" retrieveOk 1 =
        .ok (o1, [o1]) ∧
      o1.isPaid = true ∧ o1.paidAt = some 1 ∧
      o1.paymentResult = some ⟨"pi_1", "succeeded", 5,
        "owner@example.com"⟩ ∧
      webhook [o1] (some ⟨"payment_intent.succeeded", "pi_1",
        "succeeded", 2300⟩) 2 =
        (.received, [{ o1 with paidAt := some 2 }]) ∧
      ((1 : Nat) ≠ 2 → { o1 with paidAt := some 2 } ≠ o1) :=
  confirm_then_webhook_both_write uOwner baseOrder "pi_1" retrieveOk
    ⟨"pi_1", "succeeded", 5⟩ 2300 1 2 rfl rfl rfl

/-- Counterexample to C5 as stated: running the confirm call and then
the webhook for `pi_1` leaves both resolved without error, but both
performed a write and `paidAt` was set twice — first to 1, then
overwritten to 2. -/
theorem race_confirm_then_webhook_cex :
    confirmPayment [baseOrder] uOwner "o1" "pi_1" retrieveOk 1 =
      .ok (confirmedAt1, [confirmedAt1]) ∧
    confirmedAt1.paidAt = some 1 ∧
    webhook [confirmedAt1]
      (some ⟨"payment_intent.succeeded", "pi_1", "succeeded", 2300⟩) 2 =
      (.received, [confirmedAt2]) ∧
    confirmedAt2.paidAt = some 2 ∧
    confirmedAt2 ≠ confirmedAt1 :=
  ⟨rfl, rfl, rfl, rfl, by decide⟩

/-- C6 (amended): `updateOrderStatus` applies no transition table: for
any existing order and any status string whatsoever it succeeds and
stores that string (additionally flagging delivery when the string is
`delivered`); no InvalidTransition failure exists, so backward moves
are accepted. -/
theorem updateOrderStatus_accepts_any_status
    (db : List Order) (oid s : String) (now : Nat) (o : Order)
    (hfind : findById db oid = some o) :
    ∃ o', updateOrderStatus db oid s now = .ok (o', saveOrder db o') ∧
      o'.status = s := by
  by_cases hs : (s == "delivered") = true
  · refine ⟨{ o with
              status := s, isDelivered := true,
              deliveredAt := some now }, ?_, rfl⟩
    simp [updateOrderStatus, hfind, hs]
  · refine ⟨{ o with status := s }, ?_, rfl⟩
    simp [updateOrderStatus, hfind, hs]

/-- Witness for C6 (amended): an arbitrary status string is stored. -/
theorem updateOrderStatus_accepts_any_status_witness :
    ∃ o', updateOrderStatus [deliveredOrder] "o1" "no-such-state" 9 =
        .ok (o', saveOrder [deliveredOrder] o') ∧
      o'.status = "no-such-state" :=
  updateOrderStatus_accepts_any_status [deliveredOrder] "o1"
    "no-such-state" 9 deliveredOrder rfl

/-- Counterexample to C6 as stated: a delivered order is moved back to
`pending` — a transition absent from the §4.4 table, and a backward
move — yet the call succeeds instead of failing InvalidTransition. -/
theorem updateOrderStatus_regression_cex :
    deliveredOrder.status = "delivered" ∧
    updateOrderStatus [deliveredOrder] "o1" "pending" 9 =
      .ok (regressedOrder, [regressedOrder]) ∧
    regressedOrder.status = "pending" :=
  ⟨rfl, rfl, rfl⟩

/-- C7 (amended): `updateOrderToDelivered` carries no payment guard:
for any existing order — paid or not — it succeeds, sets
`isDelivered`, `deliveredAt` and status `delivered`, and leaves
`isPaid` whatever it was. -/
theorem updateOrderToDelivered_no_paid_guard
    (db : List Order) (oid : String) (now : Nat) (o : Order)
    (hfind : findById db oid = some o) :
    updateOrderToDelivered db oid now =
      .ok ({ o with
             isDelivered := true, deliveredAt := some now,
             status := "delivered" },
           saveOrder db { o with
             isDelivered := true, deliveredAt := some now,
             status := "delivered" }) ∧
    ({ o with
       isDelivered := true, deliveredAt := some now,
       status := "delivered" }).isPaid = o.isPaid := by
  refine ⟨?_, rfl⟩
  simp [updateOrderToDelivered, hfind]

/-- Witness for C7 (amended): the unpaid `baseOrder` is marked
delivered. -/
theorem updateOrderToDelivered_no_paid_guard_witness :
    updateOrderToDelivered [baseOrder] "o1" 3 =
      .ok ({ baseOrder with
             isDelivered := true, deliveredAt := some 3,
             status := "delivered" },
           saveOrder [baseOrder] { baseOrder with
             isDelivered := true, deliveredAt := some 3,
             status := "delivered" }) :=
  (updateOrderToDelivered_no_paid_guard [baseOrder] "o1" 3 baseOrder
    rfl).1

/-- Counterexample to C7 as stated: `baseOrder` has never been paid
(`isPaid = false`, no payment reference), yet the mark-delivered route
succeeds and ends with `isDelivered = true` while `isPaid` is still
false. -/
theorem updateOrderToDelivered_unpaid_cex :
    baseOrder.isPaid = false ∧
    updateOrderToDelivered [baseOrder] "o1" 3 =
      .ok (unpaidDelivered, [unpaidDelivered]) ∧
    unpaidDelivered.isDelivered = true ∧
    unpaidDelivered.isPaid = false :=
  ⟨rfl, rfl, rfl, rfl⟩

end Ecom
